import Mathlib

/-!
Verification development for the UE-Bot ESP32 firmware core
(`src/wifi/wifi_manager.cpp`, `src/utils/led_indicator.cpp`).

The two C++ classes are shallowly embedded as pure Lean state-transition
functions.  Machine integers (`unsigned long millis()`, `int` counters)
are modelled by `Nat`: the clock is monotone and never wraps in the spec's
model, and the unsigned subtractions `now - start` in the source always
have `now ≥ start`, so truncated `Nat` subtraction coincides with the
source's arithmetic on every reachable state.

Observable side effects are recorded in ghost trace fields:
* `trace`    — the argument of every invocation of the registered
               state-change callback (`_stateCallback(newState)`);
* `changes`  — every actual assignment `_state = newState`;
* `attemptTimes` — the clock value at every poll-triggered reconnect
               attempt (`_lastConnectAttempt = now; reconnect();`);
* `writes`   — every `digitalWrite(_pin, …)` as a pair
               (logical level, physical level actually driven).
-/

set_option autoImplicit false

namespace UEBot

/-- `enum class WiFiState` from `wifi_manager.h`. -/
inductive WiFiState
  | DISCONNECTED
  | CONNECTING
  | CONNECTED
  | ERROR
deriving DecidableEq, Repr

/-- `WIFI_TIMEOUT_MS` from `config.h`. -/
def WIFI_TIMEOUT_MS : Nat := 30000

/-- `RECONNECT_DELAY_MS` from `config.h`. -/
def RECONNECT_DELAY_MS : Nat := 5000

/-- State of a `WiFiManager` object (`wifi_manager.h` private fields),
with the callback slot modelled by a `callbackSet` flag plus the ghost
`trace` of its invocations, and ghost logs `changes`/`attemptTimes`. -/
structure WiFiManager where
  _ssid : Option String
  _password : Option String
  _state : WiFiState
  callbackSet : Bool
  _lastConnectAttempt : Nat
  _reconnectAttempts : Nat
  trace : List WiFiState
  changes : List WiFiState
  attemptTimes : List Nat
deriving DecidableEq, Repr

/-- `WiFiManager::WiFiManager()` — the constructor. -/
def mkWiFiManager : WiFiManager :=
  { _ssid := none
    _password := none
    _state := .DISCONNECTED
    callbackSet := false
    _lastConnectAttempt := 0
    _reconnectAttempts := 0
    trace := []
    changes := []
    attemptTimes := [] }

/-- `WiFiManager::setStateCallback` — installs the single callback slot. -/
def setStateCallback (m : WiFiManager) : WiFiManager :=
  { m with callbackSet := true }

/-- `WiFiManager::updateState`: assign `_state` and fire the callback only
when the new state differs from the current one. -/
def updateState (m : WiFiManager) (s : WiFiState) : WiFiManager :=
  if m._state = s then m
  else
    { m with
      _state := s
      changes := m.changes ++ [s]
      trace := if m.callbackSet then m.trace ++ [s] else m.trace }

/-- The `while (::WiFi.status() != WL_CONNECTED)` loop inside
`WiFiManager::begin`.  The adapter is the oracle `statusAt : Nat → Bool`
(connection status as sampled at a given clock value); `delay(500)`
advances the clock by 500ms per iteration. -/
def connectLoop (statusAt : Nat → Bool) (start now : Nat) (m : WiFiManager) :
    Bool × WiFiManager × Nat :=
  if statusAt now = true then
    (true, { updateState m .CONNECTED with _reconnectAttempts := 0 }, now)
  else if WIFI_TIMEOUT_MS < now - start then
    (false, updateState m .ERROR, now)
  else
    connectLoop statusAt start (now + 500) m
termination_by WIFI_TIMEOUT_MS + 500 + start - now
decreasing_by
  simp only [WIFI_TIMEOUT_MS] at *
  omega

/-- `WiFiManager::begin(ssid, password)`: store credentials, transition to
CONNECTING, then spin on the adapter status until connected or timed out.
Returns (result, new manager, clock after the call). -/
def wifiBegin (statusAt : Nat → Bool) (m : WiFiManager) (ssid : String)
    (pw : Option String) (now : Nat) : Bool × WiFiManager × Nat :=
  let m1 : WiFiManager := { m with _ssid := some ssid, _password := pw }
  let m2 := updateState m1 .CONNECTING
  connectLoop statusAt now now m2

/-- `WiFiManager::handleDisconnect`. -/
def handleDisconnect (m : WiFiManager) : WiFiManager :=
  updateState m .DISCONNECTED

/-- `WiFiManager::reconnect`: bail out if no ssid stored, otherwise count
the attempt and re-enter `begin` with the stored credentials. -/
def reconnect (statusAt : Nat → Bool) (m : WiFiManager) (now : Nat) :
    WiFiManager × Nat :=
  match m._ssid with
  | none => (m, now)
  | some ssid =>
      let m1 : WiFiManager :=
        { m with _reconnectAttempts := m._reconnectAttempts + 1 }
      let r := wifiBegin statusAt m1 ssid m._password now
      (r.2.1, r.2.2)

/-- Second block of `WiFiManager::loop()`: retry from DISCONNECTED/ERROR
once the fixed backoff has elapsed, stamping `_lastConnectAttempt`. -/
def wifiLoopRetry (statusAt : Nat → Bool) (m1 : WiFiManager) (now : Nat) :
    WiFiManager × Nat :=
  if (m1._state = .DISCONNECTED ∨ m1._state = .ERROR)
      ∧ RECONNECT_DELAY_MS < now - m1._lastConnectAttempt then
    reconnect statusAt
      { m1 with
        _lastConnectAttempt := now
        attemptTimes := m1.attemptTimes ++ [now] } now
  else (m1, now)

/-- `WiFiManager::loop()` (poll): detect link loss while CONNECTED, then
possibly retry.  The clock value at entry is `now`; the returned clock
accounts for the time spent blocking inside a reconnect attempt. -/
def wifiLoop (statusAt : Nat → Bool) (m : WiFiManager) (now : Nat) :
    WiFiManager × Nat :=
  wifiLoopRetry statusAt
    (if m._state = .CONNECTED ∧ statusAt now = false then handleDisconnect m
     else m) now

/-- `WiFiManager::isConnected()`. -/
def isConnected (statusAt : Nat → Bool) (m : WiFiManager) (now : Nat) : Bool :=
  m._state = .CONNECTED && statusAt now

/-- `WiFiManager::getState()`. -/
def getState (m : WiFiManager) : WiFiState :=
  m._state

/-- `WiFiManager::disconnect()`. -/
def wifiDisconnect (m : WiFiManager) : WiFiManager :=
  updateState m .DISCONNECTED

/-- Operations a caller can perform on the manager (the driver only calls
`begin` once from setup and then `loop`; `disconnect` is public API). -/
inductive WOp
  | beginOp (ssid : String) (pw : String)
  | pollOp
  | discOp
deriving DecidableEq, Repr

/-- Execute one operation.  The second component of the state is the
monotone clock; each operation happens `d` milliseconds after the previous
one finished. -/
def runOp (statusAt : Nat → Bool) (s : WiFiManager × Nat) (op : WOp × Nat) :
    WiFiManager × Nat :=
  let now := s.2 + op.2
  match op.1 with
  | .beginOp ssid pw =>
      let r := wifiBegin statusAt s.1 ssid (some pw) now
      (r.2.1, r.2.2)
  | .pollOp => wifiLoop statusAt s.1 now
  | .discOp => (wifiDisconnect s.1, now)

/-- A whole run: construct the manager, register the state-change handler
(as `setup()` does), then execute the given operations from clock 0. -/
def runOps (statusAt : Nat → Bool) (ops : List (WOp × Nat)) :
    WiFiManager × Nat :=
  ops.foldl (runOp statusAt) (setStateCallback mkWiFiManager, 0)

/-- `enum class LEDPattern` from `led_indicator.h`. -/
inductive LEDPattern
  | OFF
  | ON
  | BLINK_SLOW
  | BLINK_FAST
  | PULSE
  | DOUBLE_BLINK
deriving DecidableEq, Repr

/-- State of an `LEDIndicator` object (`led_indicator.h` private fields),
plus the ghost log `writes` of every `digitalWrite`, recorded as
(logical level requested, physical level driven). -/
structure LEDIndicator where
  _pin : Nat
  _activeLow : Bool
  _pattern : LEDPattern
  _ledState : Bool
  _lastUpdate : Nat
  _blinkPhase : Nat
  writes : List (Bool × Bool)
deriving DecidableEq, Repr

/-- `LEDIndicator::LEDIndicator(pin, activeLow)` — the constructor. -/
def mkIndicator (pin : Nat) (activeLow : Bool) : LEDIndicator :=
  { _pin := pin
    _activeLow := activeLow
    _pattern := .OFF
    _ledState := false
    _lastUpdate := 0
    _blinkPhase := 0
    writes := [] }

/-- `LEDIndicator::applyState`: store the logical level and drive the pin
through the polarity correction `_activeLow ? !state : state`. -/
def applyState (l : LEDIndicator) (s : Bool) : LEDIndicator :=
  { l with
    _ledState := s
    writes := l.writes ++ [(s, if l._activeLow then !s else s)] }

/-- `LEDIndicator::begin()` (`pinMode` has no modelled state). -/
def ledBegin (l : LEDIndicator) : LEDIndicator :=
  applyState l false

/-- `LEDIndicator::toggle()`. -/
def ledToggle (l : LEDIndicator) : LEDIndicator :=
  applyState l (!l._ledState)

/-- `LEDIndicator::loop()` at clock value `now` (`millis()`). -/
def ledLoop (l : LEDIndicator) (now : Nat) : LEDIndicator :=
  match l._pattern with
  | .OFF => applyState l false
  | .ON => applyState l true
  | .BLINK_SLOW =>
      if 1000 < now - l._lastUpdate then ledToggle { l with _lastUpdate := now }
      else l
  | .BLINK_FAST =>
      if 200 < now - l._lastUpdate then ledToggle { l with _lastUpdate := now }
      else l
  | .PULSE =>
      if 50 < now - l._lastUpdate then ledToggle { l with _lastUpdate := now }
      else l
  | .DOUBLE_BLINK =>
      if (if l._blinkPhase < 4 then 100 else 500) < now - l._lastUpdate then
        { ledToggle { l with _lastUpdate := now } with
          _blinkPhase := (l._blinkPhase + 1) % 6 }
      else l

/-- `LEDIndicator::setPattern`. -/
def ledSetPattern (l : LEDIndicator) (p : LEDPattern) : LEDIndicator :=
  { l with _pattern := p, _lastUpdate := 0, _blinkPhase := 0 }

/-- `LEDIndicator::on()`. -/
def ledOn (l : LEDIndicator) : LEDIndicator :=
  applyState { l with _pattern := .ON } true

/-- `LEDIndicator::off()`. -/
def ledOff (l : LEDIndicator) : LEDIndicator :=
  applyState { l with _pattern := .OFF } false

/-- Public operations on the indicator. -/
inductive LedOp
  | beginOp
  | loopOp (now : Nat)
  | setPatternOp (p : LEDPattern)
  | onOp
  | offOp
  | toggleOp
deriving DecidableEq, Repr

/-- Execute one indicator operation. -/
def ledStep (l : LEDIndicator) (op : LedOp) : LEDIndicator :=
  match op with
  | .beginOp => ledBegin l
  | .loopOp now => ledLoop l now
  | .setPatternOp p => ledSetPattern l p
  | .onOp => ledOn l
  | .offOp => ledOff l
  | .toggleOp => ledToggle l

/-- A whole indicator run from the constructor. -/
def ledRun (pin : Nat) (activeLow : Bool) (ops : List LedOp) : LEDIndicator :=
  ops.foldl ledStep (mkIndicator pin activeLow)

/-- Dense polling: `pollFrom l t k` calls `loop()` at every millisecond
`t+1, t+2, …, t+k` — the idealised ≤50ms-period polling regime of the
spec, at the clock's full resolution. -/
def pollFrom (l : LEDIndicator) (t : Nat) : Nat → LEDIndicator
  | 0 => l
  | k + 1 => pollFrom (ledLoop l (t + 1)) (t + 1) k

/-- Folding `loop()` over an explicit list of poll times. -/
def pollSeq (l : LEDIndicator) (times : List Nat) : LEDIndicator :=
  times.foldl ledLoop l

/-! ### Basic lemmas about `updateState` and `connectLoop` -/

theorem updateState_self (m : WiFiManager) (s : WiFiState) (h : m._state = s) :
    updateState m s = m := by
  simp [updateState, h]

theorem updateState_ne (m : WiFiManager) (s : WiFiState) (h : m._state ≠ s) :
    updateState m s =
      { m with
        _state := s
        changes := m.changes ++ [s]
        trace := if m.callbackSet then m.trace ++ [s] else m.trace } := by
  simp [updateState, h]

theorem connectLoop_status_true (statusAt : Nat → Bool) (start now : Nat)
    (m : WiFiManager) (h : statusAt now = true) :
    connectLoop statusAt start now m =
      (true, { updateState m .CONNECTED with _reconnectAttempts := 0 }, now) := by
  rw [connectLoop]
  simp [h]

theorem connectLoop_timeout (statusAt : Nat → Bool) (start now : Nat)
    (m : WiFiManager) (h : statusAt now = false)
    (ht : WIFI_TIMEOUT_MS < now - start) :
    connectLoop statusAt start now m = (false, updateState m .ERROR, now) := by
  rw [connectLoop]
  simp [h, ht]

theorem connectLoop_step (statusAt : Nat → Bool) (start now : Nat)
    (m : WiFiManager) (h : statusAt now = false)
    (ht : ¬ WIFI_TIMEOUT_MS < now - start) :
    connectLoop statusAt start now m = connectLoop statusAt start (now + 500) m := by
  rw [connectLoop]
  simp [h, ht]

/-- The connect loop samples the adapter at `start, start+500, …`; the
timeout branch fires at sample index 61 (elapsed 30500ms > 30000ms), so
when every sample up to index 61 reads disconnected the loop fails. -/
theorem connectLoop_fail_aux (statusAt : Nat → Bool) (start : Nat)
    (m : WiFiManager) :
    ∀ d j, j + d = 61 →
      (∀ i, j ≤ i → i ≤ 61 → statusAt (start + 500 * i) = false) →
      connectLoop statusAt start (start + 500 * j) m =
        (false, updateState m .ERROR, start + 500 * 61) := by
  intro d
  induction d with
  | zero =>
      intro j hj hall
      have hst : statusAt (start + 500 * j) = false := hall j le_rfl (by omega)
      have hj61 : j = 61 := by omega
      subst hj61
      exact connectLoop_timeout statusAt start _ m hst
        (by simp only [WIFI_TIMEOUT_MS]; omega)
  | succ d ih =>
      intro j hj hall
      have hst : statusAt (start + 500 * j) = false := hall j le_rfl (by omega)
      rw [connectLoop_step statusAt start _ m hst
        (by simp only [WIFI_TIMEOUT_MS]; omega)]
      have hstep : start + 500 * j + 500 = start + 500 * (j + 1) := by ring
      rw [hstep]
      exact ih (j + 1) (by omega) (fun i h1 h2 => hall i (by omega) h2)

/-- When the adapter first reads connected at sample index `k ≤ 61`, the
loop exits successfully at clock `start + 500·k`. -/
theorem connectLoop_succ_aux (statusAt : Nat → Bool) (start : Nat)
    (m : WiFiManager) :
    ∀ d j k, j + d = k → k ≤ 61 → statusAt (start + 500 * k) = true →
      (∀ i, j ≤ i → i < k → statusAt (start + 500 * i) = false) →
      connectLoop statusAt start (start + 500 * j) m =
        (true, { updateState m .CONNECTED with _reconnectAttempts := 0 },
         start + 500 * k) := by
  intro d
  induction d with
  | zero =>
      intro j k hjk hk61 hk _
      have hj : j = k := by omega
      subst hj
      exact connectLoop_status_true statusAt start _ m hk
  | succ d ih =>
      intro j k hjk hk61 hk hfirst
      have hst : statusAt (start + 500 * j) = false := hfirst j le_rfl (by omega)
      rw [connectLoop_step statusAt start _ m hst
        (by simp only [WIFI_TIMEOUT_MS]; omega)]
      have hstep : start + 500 * j + 500 = start + 500 * (j + 1) := by ring
      rw [hstep]
      exact ih (j + 1) k (by omega) hk61 hk
        (fun i h1 h2 => hfirst i (by omega) h2)

/-- `begin` fails (with final clock `now + 30500`) exactly when every
500ms status sample through index 61 reads disconnected. -/
theorem wifiBegin_fail (statusAt : Nat → Bool) (m : WiFiManager)
    (ssid : String) (pw : Option String) (now : Nat)
    (hall : ∀ i, i ≤ 61 → statusAt (now + 500 * i) = false) :
    wifiBegin statusAt m ssid pw now =
      (false,
       updateState (updateState { m with _ssid := some ssid, _password := pw }
         .CONNECTING) .ERROR,
       now + 500 * 61) := by
  have h := connectLoop_fail_aux statusAt now
    (updateState { m with _ssid := some ssid, _password := pw } .CONNECTING)
    61 0 (by omega) (fun i h0 h61 => hall i h61)
  simpa [wifiBegin] using h

/-- `begin` succeeds whenever some status sample through index 61 reads
connected, exiting at the first such sample. -/
theorem wifiBegin_succ (statusAt : Nat → Bool) (m : WiFiManager)
    (ssid : String) (pw : Option String) (now : Nat)
    (hex : ∃ i, i ≤ 61 ∧ statusAt (now + 500 * i) = true) :
    ∃ k, k ≤ 61 ∧ statusAt (now + 500 * k) = true ∧
      wifiBegin statusAt m ssid pw now =
        (true,
         { updateState (updateState { m with _ssid := some ssid, _password := pw }
             .CONNECTING) .CONNECTED with _reconnectAttempts := 0 },
         now + 500 * k) := by
  obtain ⟨i, hi61, hi⟩ := hex
  have hexP : ∃ n, statusAt (now + 500 * n) = true := ⟨i, hi⟩
  classical
  set k := Nat.find hexP with hk
  have hkP : statusAt (now + 500 * k) = true := Nat.find_spec hexP
  have hkmin : ∀ n, n < k → ¬ statusAt (now + 500 * n) = true :=
    fun n hn => Nat.find_min hexP hn
  have hk61 : k ≤ 61 := le_trans (Nat.find_min' hexP hi) hi61
  refine ⟨k, hk61, hkP, ?_⟩
  have h := connectLoop_succ_aux statusAt now
    (updateState { m with _ssid := some ssid, _password := pw } .CONNECTING)
    k 0 k (by omega) hk61 hkP
    (fun n h0 hn => by
      have := hkmin n hn
      exact Bool.not_eq_true _ ▸ by simpa using this)
  simpa [wifiBegin] using h

/-- Exhaustive shape of a `begin` call: it either times out or connects,
the resulting manager is obtained from the entry manager by the CONNECTING
transition followed by the ERROR (resp. CONNECTED, with the attempt counter
cleared) transition, and the clock never goes backwards. -/
theorem wifiBegin_cases (statusAt : Nat → Bool) (m : WiFiManager)
    (ssid : String) (pw : Option String) (now : Nat) :
    ∃ (b : Bool) (res : WiFiManager) (now2 : Nat),
      wifiBegin statusAt m ssid pw now = (b, res, now2) ∧ now ≤ now2 ∧
      (res = updateState
          (updateState { m with _ssid := some ssid, _password := pw }
            .CONNECTING) .ERROR ∨
       res = { updateState
          (updateState { m with _ssid := some ssid, _password := pw }
            .CONNECTING) .CONNECTED with _reconnectAttempts := 0 }) := by
  classical
  by_cases hex : ∃ i, i ≤ 61 ∧ statusAt (now + 500 * i) = true
  · obtain ⟨k, _, _, heq⟩ := wifiBegin_succ statusAt m ssid pw now hex
    exact ⟨true, _, now + 500 * k, heq, by omega, Or.inr rfl⟩
  · push_neg at hex
    have hall : ∀ i, i ≤ 61 → statusAt (now + 500 * i) = false := by
      intro i hi
      have := hex i hi
      simpa using this
    exact ⟨false, _, now + 500 * 61,
      wifiBegin_fail statusAt m ssid pw now hall, by omega, Or.inl rfl⟩

/-! ### C1: the handler fires exactly once per distinct state change -/

/-- Trace discipline: the callback is installed, the callback trace equals
the ghost log of actual state changes, the current state is the last state
change (or the initial DISCONNECTED), and no recorded change repeats the
state that preceded it. -/
def GoodTrace (m : WiFiManager) : Prop :=
  m.callbackSet = true ∧ m.trace = m.changes ∧
  (WiFiState.DISCONNECTED :: m.changes).getLast? = some m._state ∧
  List.Chain' (· ≠ ·) (WiFiState.DISCONNECTED :: m.changes)

theorem goodTrace_updateState {m : WiFiManager} (h : GoodTrace m)
    (s : WiFiState) : GoodTrace (updateState m s) := by
  obtain ⟨hcb, htr, hlast, hchain⟩ := h
  by_cases hst : m._state = s
  · rw [updateState_self m s hst]
    exact ⟨hcb, htr, hlast, hchain⟩
  · rw [updateState_ne m s hst]
    refine ⟨hcb, ?_, ?_, ?_⟩
    · simp [hcb, htr]
    · have hsplit : (WiFiState.DISCONNECTED :: (m.changes ++ [s])) =
          (WiFiState.DISCONNECTED :: m.changes) ++ [s] := by simp
      rw [hsplit, List.getLast?_concat]
    · have hsplit : (WiFiState.DISCONNECTED :: (m.changes ++ [s])) =
          (WiFiState.DISCONNECTED :: m.changes) ++ [s] := by simp
      rw [hsplit, List.chain'_append]
      refine ⟨hchain, List.chain'_singleton s, ?_⟩
      intro x hx y hy
      rw [hlast] at hx
      simp at hx hy
      subst hx; subst hy
      exact hst

theorem goodTrace_fields {m : WiFiManager} (m' : WiFiManager)
    (h : GoodTrace m)
    (h1 : m'.callbackSet = m.callbackSet) (h2 : m'.trace = m.trace)
    (h3 : m'.changes = m.changes) (h4 : m'._state = m._state) :
    GoodTrace m' := by
  obtain ⟨hcb, htr, hlast, hchain⟩ := h
  exact ⟨h1.trans hcb, by rw [h2, h3, htr], by rw [h3, h4, hlast],
    by rw [h3]; exact hchain⟩

theorem goodTrace_wifiBegin {m : WiFiManager} (h : GoodTrace m)
    (statusAt : Nat → Bool) (ssid : String) (pw : Option String) (now : Nat) :
    GoodTrace (wifiBegin statusAt m ssid pw now).2.1 := by
  obtain ⟨b, res, now2, heq, _, hshape⟩ :=
    wifiBegin_cases statusAt m ssid pw now
  rw [heq]
  have hm1 : GoodTrace { m with _ssid := some ssid, _password := pw } :=
    goodTrace_fields _ h rfl rfl rfl rfl
  rcases hshape with hres | hres <;> rw [hres]
  · exact goodTrace_updateState (goodTrace_updateState hm1 _) _
  · exact goodTrace_fields _
      (goodTrace_updateState (goodTrace_updateState hm1 _) _) rfl rfl rfl rfl

theorem goodTrace_reconnect {m : WiFiManager} (h : GoodTrace m)
    (statusAt : Nat → Bool) (now : Nat) :
    GoodTrace (reconnect statusAt m now).1 := by
  cases hss : m._ssid with
  | none => simpa [reconnect, hss] using h
  | some ssid =>
      simp only [reconnect, hss]
      apply goodTrace_wifiBegin ?_ statusAt ssid m._password now
      exact goodTrace_fields _ h rfl rfl rfl rfl

theorem goodTrace_wifiLoopRetry {m1 : WiFiManager} (h : GoodTrace m1)
    (statusAt : Nat → Bool) (now : Nat) :
    GoodTrace (wifiLoopRetry statusAt m1 now).1 := by
  unfold wifiLoopRetry
  split
  · apply goodTrace_reconnect ?_ statusAt now
    exact goodTrace_fields _ h rfl rfl rfl rfl
  · exact h

theorem goodTrace_wifiLoop {m : WiFiManager} (h : GoodTrace m)
    (statusAt : Nat → Bool) (now : Nat) :
    GoodTrace (wifiLoop statusAt m now).1 := by
  unfold wifiLoop
  apply goodTrace_wifiLoopRetry _ statusAt now
  split
  · exact goodTrace_updateState h _
  · exact h

theorem goodTrace_runOps (statusAt : Nat → Bool) :
    ∀ (ops : List (WOp × Nat)) (s : WiFiManager × Nat), GoodTrace s.1 →
      GoodTrace (ops.foldl (runOp statusAt) s).1 := by
  intro ops
  induction ops with
  | nil => intro s h; exact h
  | cons op rest ih =>
      intro s h
      refine ih _ ?_
      unfold runOp
      cases hop : op.1 with
      | beginOp ssid pw => exact goodTrace_wifiBegin h statusAt ssid _ _
      | pollOp => exact goodTrace_wifiLoop h statusAt _
      | discOp => exact goodTrace_updateState h _

/-- C1: across every sequence of operations (begin / poll / disconnect)
and every adapter status history, the state only evolves through
`updateState`, and the registered handler is invoked exactly once per
transition to a distinct state: the handler trace coincides with the log
of actual state changes, consecutive states always differ (no-op
transitions never fire), and the current state is the last change. -/
theorem uebot_C1 (statusAt : Nat → Bool) (ops : List (WOp × Nat)) :
    (runOps statusAt ops).1.trace = (runOps statusAt ops).1.changes ∧
    List.Chain' (· ≠ ·)
      (WiFiState.DISCONNECTED :: (runOps statusAt ops).1.changes) ∧
    (WiFiState.DISCONNECTED :: (runOps statusAt ops).1.changes).getLast? =
      some (runOps statusAt ops).1._state := by
  have hinit : GoodTrace (setStateCallback mkWiFiManager) := by
    simp [GoodTrace, setStateCallback, mkWiFiManager]
  have h := goodTrace_runOps statusAt ops (setStateCallback mkWiFiManager, 0)
    hinit
  obtain ⟨_, h2, h3, h4⟩ := h
  exact ⟨h2, h4, h3⟩

/-! ### Field-level description of a `begin` call -/

theorem doubleUpdate_eq (m : WiFiManager) (s2 : WiFiState)
    (hst : m._state ≠ .CONNECTING) (hs2 : WiFiState.CONNECTING ≠ s2)
    (hcb : m.callbackSet = true) (ssid : String) (pw : Option String) :
    updateState (updateState { m with _ssid := some ssid, _password := pw }
        .CONNECTING) s2 =
      { m with
        _ssid := some ssid
        _password := pw
        _state := s2
        changes := m.changes ++ [.CONNECTING, s2]
        trace := m.trace ++ [.CONNECTING, s2] } := by
  have h1 : ({ m with _ssid := some ssid, _password := pw } :
      WiFiManager)._state ≠ .CONNECTING := by simpa using hst
  rw [updateState_ne _ _ h1]
  rw [updateState_ne _ _ (by simpa using hs2)]
  simp [hcb]

/-- C2: `begin(ssid, password)` first transitions to Connecting; if the
adapter reports connected at one of the 500ms-spaced status samples taken
before the `WIFI_TIMEOUT_MS` timeout expires (sample indices 0..61), it
returns true with state Connected and the attempt counter reset to 0, the
handler having fired with Connecting then Connected; if the adapter never
reports connected at any such sample, it returns false with state Error,
the handler having fired with Connecting then Error. -/
theorem uebot_C2 (statusAt : Nat → Bool) (m : WiFiManager) (ssid : String)
    (pw : Option String) (now : Nat)
    (hst : m._state ≠ .CONNECTING) (hcb : m.callbackSet = true) :
    ((∃ i, i ≤ 61 ∧ statusAt (now + 500 * i) = true) →
        (wifiBegin statusAt m ssid pw now).1 = true ∧
        (wifiBegin statusAt m ssid pw now).2.1._state = .CONNECTED ∧
        (wifiBegin statusAt m ssid pw now).2.1._reconnectAttempts = 0 ∧
        (wifiBegin statusAt m ssid pw now).2.1.trace =
          m.trace ++ [.CONNECTING, .CONNECTED]) ∧
    ((∀ i, i ≤ 61 → statusAt (now + 500 * i) = false) →
        (wifiBegin statusAt m ssid pw now).1 = false ∧
        (wifiBegin statusAt m ssid pw now).2.1._state = .ERROR ∧
        (wifiBegin statusAt m ssid pw now).2.1.trace =
          m.trace ++ [.CONNECTING, .ERROR]) := by
  constructor
  · intro hex
    obtain ⟨k, _, _, heq⟩ := wifiBegin_succ statusAt m ssid pw now hex
    rw [heq, doubleUpdate_eq m .CONNECTED hst (by simp) hcb ssid pw]
    simp
  · intro hall
    rw [wifiBegin_fail statusAt m ssid pw now hall,
      doubleUpdate_eq m .ERROR hst (by simp) hcb ssid pw]
    simp

/-- Witness for C2: a status oracle that reports connected at once, from
the freshly constructed manager with its callback installed. -/
theorem uebot_C2_witness :
    (wifiBegin (fun _ => true) (setStateCallback mkWiFiManager) "net" none 0).1
        = true ∧
    (wifiBegin (fun _ => true) (setStateCallback mkWiFiManager) "net" none
        0).2.1._state = .CONNECTED ∧
    (wifiBegin (fun _ => true) (setStateCallback mkWiFiManager) "net" none
        0).2.1._reconnectAttempts = 0 ∧
    (wifiBegin (fun _ => true) (setStateCallback mkWiFiManager) "net" none
        0).2.1.trace =
      (setStateCallback mkWiFiManager).trace ++ [.CONNECTING, .CONNECTED] :=
  (uebot_C2 (fun _ => true) (setStateCallback mkWiFiManager) "net" none 0
    (by decide) (by decide)).1 ⟨0, by decide⟩

@[simp] theorem updateState_state (m : WiFiManager) (s : WiFiState) :
    (updateState m s)._state = s := by
  unfold updateState; split <;> simp_all

@[simp] theorem updateState_attempts (m : WiFiManager) (s : WiFiState) :
    (updateState m s)._reconnectAttempts = m._reconnectAttempts := by
  unfold updateState; split <;> simp

@[simp] theorem updateState_lca (m : WiFiManager) (s : WiFiState) :
    (updateState m s)._lastConnectAttempt = m._lastConnectAttempt := by
  unfold updateState; split <;> simp

@[simp] theorem updateState_attemptTimes (m : WiFiManager) (s : WiFiState) :
    (updateState m s).attemptTimes = m.attemptTimes := by
  unfold updateState; split <;> simp

@[simp] theorem updateState_callbackSet (m : WiFiManager) (s : WiFiState) :
    (updateState m s).callbackSet = m.callbackSet := by
  unfold updateState; split <;> simp

/-- A `begin` call from any non-CONNECTING state with the callback set
extends the handler trace by exactly `[CONNECTING, s2]` with `s2` either
CONNECTED or ERROR, and ends in state `s2`. -/
theorem wifiBegin_delta (statusAt : Nat → Bool) (m : WiFiManager)
    (ssid : String) (pw : Option String) (now : Nat)
    (hst : m._state ≠ .CONNECTING) (hcb : m.callbackSet = true) :
    ∃ s2, (s2 = WiFiState.CONNECTED ∨ s2 = WiFiState.ERROR) ∧
      (wifiBegin statusAt m ssid pw now).2.1.trace =
        m.trace ++ [.CONNECTING, s2] ∧
      (wifiBegin statusAt m ssid pw now).2.1._state = s2 := by
  obtain ⟨b, res, now2, heq, _, hshape⟩ := wifiBegin_cases statusAt m ssid pw now
  rcases hshape with hres | hres
  · refine ⟨.ERROR, Or.inr rfl, ?_, ?_⟩ <;>
      rw [heq] <;>
      simp [hres, doubleUpdate_eq m .ERROR hst (by simp) hcb ssid pw]
  · refine ⟨.CONNECTED, Or.inl rfl, ?_, ?_⟩ <;>
      rw [heq] <;>
      simp [hres, doubleUpdate_eq m .CONNECTED hst (by simp) hcb ssid pw]

/-- A `reconnect` call from a non-CONNECTING state with the callback set
extends the handler trace but never adds a DISCONNECTED notification. -/
theorem reconnect_delta (statusAt : Nat → Bool) (M : WiFiManager) (now : Nat)
    (hst : M._state ≠ .CONNECTING) (hcb : M.callbackSet = true) :
    ∃ rest, (reconnect statusAt M now).1.trace = M.trace ++ rest ∧
      WiFiState.DISCONNECTED ∉ rest := by
  cases hss : M._ssid with
  | none => exact ⟨[], by simp [reconnect, hss], by simp⟩
  | some ssid =>
      simp only [reconnect, hss]
      obtain ⟨s2, hs2, htr, _⟩ := wifiBegin_delta statusAt
        { M with _reconnectAttempts := M._reconnectAttempts + 1 } ssid
        M._password now (by simpa using hst) (by simpa using hcb)
      refine ⟨[.CONNECTING, s2], by simpa using htr, ?_⟩
      rcases hs2 with h | h <;> simp [h]

/-- The retry half of a poll never adds a DISCONNECTED notification. -/
theorem wifiLoopRetry_delta (statusAt : Nat → Bool) (M1 : WiFiManager)
    (now : Nat) (hst : M1._state ≠ .CONNECTING) (hcb : M1.callbackSet = true) :
    ∃ rest, (wifiLoopRetry statusAt M1 now).1.trace = M1.trace ++ rest ∧
      WiFiState.DISCONNECTED ∉ rest := by
  unfold wifiLoopRetry
  split
  · obtain ⟨rest, htr, hni⟩ := reconnect_delta statusAt
      { M1 with
        _lastConnectAttempt := now
        attemptTimes := M1.attemptTimes ++ [now] } now
      (by simpa using hst) (by simpa using hcb)
    exact ⟨rest, by simpa using htr, hni⟩
  · exact ⟨[], by simp, by simp⟩

/-- C5: a poll in state Connected with the adapter reporting the link
lost transitions to Disconnected and fires the handler exactly once with
Disconnected (any immediate retry in the same poll only ever adds
Connecting/Connected/Error notifications); a poll in state Connected with
the adapter still connected leaves the manager entirely unchanged. -/
theorem uebot_C5 (statusAt : Nat → Bool) (m : WiFiManager) (now : Nat)
    (hst : m._state = .CONNECTED) (hcb : m.callbackSet = true) :
    (statusAt now = false →
      ∃ rest, (wifiLoop statusAt m now).1.trace =
          m.trace ++ (WiFiState.DISCONNECTED :: rest) ∧
        WiFiState.DISCONNECTED ∉ rest) ∧
    (statusAt now = true → wifiLoop statusAt m now = (m, now)) := by
  constructor
  · intro hdown
    have hm1 : handleDisconnect m =
        { m with
          _state := .DISCONNECTED
          changes := m.changes ++ [.DISCONNECTED]
          trace := m.trace ++ [.DISCONNECTED] } := by
      unfold handleDisconnect
      rw [updateState_ne m .DISCONNECTED (by simp [hst])]
      simp [hcb]
    obtain ⟨rest, htr, hni⟩ := wifiLoopRetry_delta statusAt
      { m with
        _state := .DISCONNECTED
        changes := m.changes ++ [.DISCONNECTED]
        trace := m.trace ++ [.DISCONNECTED] } now (by simp) (by simp [hcb])
    refine ⟨rest, ?_, hni⟩
    rw [wifiLoop, if_pos ⟨hst, hdown⟩, hm1, htr]
    simp
  · intro hup
    rw [wifiLoop, if_neg (by simp [hup])]
    unfold wifiLoopRetry
    rw [if_neg (by simp [hst])]

/-- Witness for C5 with a concrete Connected manager. -/
theorem uebot_C5_witness :
    ((fun _ => false : Nat → Bool) 9000 = false →
      ∃ rest,
        (wifiLoop (fun _ => false)
          { setStateCallback mkWiFiManager with
            _ssid := some "net", _state := .CONNECTED } 9000).1.trace =
          ({ setStateCallback mkWiFiManager with
             _ssid := some "net", _state := .CONNECTED } :
             WiFiManager).trace ++ (WiFiState.DISCONNECTED :: rest) ∧
        WiFiState.DISCONNECTED ∉ rest) ∧
    ((fun _ => false : Nat → Bool) 9000 = true →
      wifiLoop (fun _ => false)
        { setStateCallback mkWiFiManager with
          _ssid := some "net", _state := .CONNECTED } 9000 =
        ({ setStateCallback mkWiFiManager with
           _ssid := some "net", _state := .CONNECTED }, 9000)) :=
  uebot_C5 (fun _ => false)
    { setStateCallback mkWiFiManager with
      _ssid := some "net", _state := .CONNECTED } 9000 (by decide) (by decide)

/-! ### C9: the reconnect attempt counter -/

/-- C9: a poll from Disconnected/Error past the backoff with stored
credentials triggers exactly one reconnect attempt: on success the
counter is reset to 0 (and the state is Connected); on failure the
counter is exactly the old value plus one — a failed attempt never resets
it (and the state is Error). -/
theorem uebot_C9 (statusAt : Nat → Bool) (m : WiFiManager) (now : Nat)
    (ssid : String)
    (hst : m._state = .DISCONNECTED ∨ m._state = .ERROR)
    (hb : RECONNECT_DELAY_MS < now - m._lastConnectAttempt)
    (hss : m._ssid = some ssid) :
    ((∃ i, i ≤ 61 ∧ statusAt (now + 500 * i) = true) →
        (wifiLoop statusAt m now).1._reconnectAttempts = 0 ∧
        (wifiLoop statusAt m now).1._state = .CONNECTED) ∧
    ((∀ i, i ≤ 61 → statusAt (now + 500 * i) = false) →
        (wifiLoop statusAt m now).1._reconnectAttempts =
          m._reconnectAttempts + 1 ∧
        (wifiLoop statusAt m now).1._state = .ERROR) := by
  have hnc : ¬(m._state = .CONNECTED ∧ statusAt now = false) := by
    rcases hst with h | h <;> simp [h]
  have hloop : wifiLoop statusAt m now =
      reconnect statusAt
        { m with
          _lastConnectAttempt := now
          attemptTimes := m.attemptTimes ++ [now] } now := by
    rw [wifiLoop, if_neg hnc]
    unfold wifiLoopRetry
    rw [if_pos ⟨hst, hb⟩]
  have hrec : reconnect statusAt
      { m with
        _lastConnectAttempt := now
        attemptTimes := m.attemptTimes ++ [now] } now =
      ((wifiBegin statusAt
          { m with
            _lastConnectAttempt := now
            attemptTimes := m.attemptTimes ++ [now]
            _reconnectAttempts := m._reconnectAttempts + 1 } ssid
          m._password now).2.1,
       (wifiBegin statusAt
          { m with
            _lastConnectAttempt := now
            attemptTimes := m.attemptTimes ++ [now]
            _reconnectAttempts := m._reconnectAttempts + 1 } ssid
          m._password now).2.2) := by
    simp [reconnect, hss]
  rw [hloop, hrec]
  constructor
  · intro hex
    obtain ⟨k, _, _, heq⟩ := wifiBegin_succ statusAt _ ssid m._password now hex
    rw [heq]
    simp
  · intro hall
    rw [wifiBegin_fail statusAt _ ssid m._password now hall]
    simp

/-- Witness for C9: a Disconnected manager with stored credentials, well
past the backoff, against an adapter that never connects. -/
theorem uebot_C9_witness :
    ((∃ i, i ≤ 61 ∧ (fun _ => false : Nat → Bool) (9000 + 500 * i) = true) →
      (wifiLoop (fun _ => false)
          { setStateCallback mkWiFiManager with _ssid := some "net" }
          9000).1._reconnectAttempts = 0 ∧
      (wifiLoop (fun _ => false)
          { setStateCallback mkWiFiManager with _ssid := some "net" }
          9000).1._state = .CONNECTED) ∧
    ((∀ i, i ≤ 61 → (fun _ => false : Nat → Bool) (9000 + 500 * i) = false) →
      (wifiLoop (fun _ => false)
          { setStateCallback mkWiFiManager with _ssid := some "net" }
          9000).1._reconnectAttempts =
        ({ setStateCallback mkWiFiManager with _ssid := some "net" } :
          WiFiManager)._reconnectAttempts + 1 ∧
      (wifiLoop (fun _ => false)
          { setStateCallback mkWiFiManager with _ssid := some "net" }
          9000).1._state = .ERROR) :=
  uebot_C9 (fun _ => false)
    { setStateCallback mkWiFiManager with _ssid := some "net" } 9000 "net"
    (Or.inl (by decide)) (by decide) (by decide)

/-! ### C6: reconnect attempts are separated by the backoff interval -/

theorem chain'_append_last {α : Type} {R : α → α → Prop} {l : List α} {a : α}
    (h : List.Chain' R l) (hlast : ∀ x, l.getLast? = some x → R x a) :
    List.Chain' R (l ++ [a]) := by
  rw [List.chain'_append]
  refine ⟨h, List.chain'_singleton a, ?_⟩
  intro x hx y hy
  simp only [List.head?_cons, Option.mem_def, Option.some.injEq] at hy
  subst hy
  exact hlast x (Option.mem_def.mp hx)

/-- A `begin` call never touches the attempt log or the attempt
timestamp, and the clock never goes backwards across it. -/
theorem wifiBegin_frame (statusAt : Nat → Bool) (m : WiFiManager)
    (ssid : String) (pw : Option String) (now : Nat) :
    (wifiBegin statusAt m ssid pw now).2.1.attemptTimes = m.attemptTimes ∧
    (wifiBegin statusAt m ssid pw now).2.1._lastConnectAttempt =
      m._lastConnectAttempt ∧
    now ≤ (wifiBegin statusAt m ssid pw now).2.2 := by
  obtain ⟨b, res, now2, heq, hle, hshape⟩ := wifiBegin_cases statusAt m ssid pw now
  rw [heq]
  rcases hshape with h | h <;> simp [h, hle]

theorem reconnect_frame (statusAt : Nat → Bool) (M : WiFiManager) (now : Nat) :
    (reconnect statusAt M now).1.attemptTimes = M.attemptTimes ∧
    (reconnect statusAt M now).1._lastConnectAttempt =
      M._lastConnectAttempt ∧
    now ≤ (reconnect statusAt M now).2 := by
  cases hss : M._ssid with
  | none => simp [reconnect, hss]
  | some ssid =>
      simp only [reconnect, hss]
      have h := wifiBegin_frame statusAt
        { M with _reconnectAttempts := M._reconnectAttempts + 1 } ssid
        M._password now
      simpa using h

/-- Backoff invariant: the recorded attempt times are spaced by more than
the backoff interval, the last recorded attempt is not later than
`_lastConnectAttempt`, and `_lastConnectAttempt` is not in the future. -/
def BackoffInv (m : WiFiManager) (clock : Nat) : Prop :=
  List.Chain' (fun a b => a + RECONNECT_DELAY_MS < b) m.attemptTimes ∧
  (∀ t, m.attemptTimes.getLast? = some t → t ≤ m._lastConnectAttempt) ∧
  m._lastConnectAttempt ≤ clock

theorem backoffInv_wifiLoopRetry (statusAt : Nat → Bool) (M1 : WiFiManager)
    (now clock : Nat) (h : BackoffInv M1 clock) (hn : clock ≤ now) :
    BackoffInv (wifiLoopRetry statusAt M1 now).1
      (wifiLoopRetry statusAt M1 now).2 := by
  obtain ⟨hch, hlast, hle⟩ := h
  unfold wifiLoopRetry
  split
  · next hcond =>
      obtain ⟨-, hbk⟩ := hcond
      obtain ⟨hA, hL, hN⟩ := reconnect_frame statusAt
        { M1 with
          _lastConnectAttempt := now
          attemptTimes := M1.attemptTimes ++ [now] } now
      refine ⟨?_, ?_, ?_⟩
      · rw [hA]
        refine chain'_append_last hch ?_
        intro x hx
        have hx1 : x ≤ M1._lastConnectAttempt := hlast x hx
        simp only [RECONNECT_DELAY_MS] at hbk ⊢
        omega
      · intro t ht
        rw [hA, List.getLast?_concat] at ht
        simp only [Option.some.injEq] at ht
        subst ht
        rw [hL]
      · rw [hL]
        simpa using hN
  · exact ⟨hch, hlast, le_trans hle hn⟩

theorem backoffInv_wifiLoop (statusAt : Nat → Bool) (m : WiFiManager)
    (now clock : Nat) (h : BackoffInv m clock) (hn : clock ≤ now) :
    BackoffInv (wifiLoop statusAt m now).1 (wifiLoop statusAt m now).2 := by
  rw [wifiLoop]
  apply backoffInv_wifiLoopRetry statusAt _ now clock ?_ hn
  split
  · unfold handleDisconnect
    obtain ⟨hch, hlast, hle⟩ := h
    exact ⟨by simpa using hch, fun t ht => by
      rw [updateState_lca]
      exact hlast t (by simpa using ht), by simpa using hle⟩
  · exact h

theorem backoffInv_runOps (statusAt : Nat → Bool) :
    ∀ (ops : List (WOp × Nat)) (s : WiFiManager × Nat),
      BackoffInv s.1 s.2 →
      BackoffInv (ops.foldl (runOp statusAt) s).1
        (ops.foldl (runOp statusAt) s).2 := by
  intro ops
  induction ops with
  | nil => intro s h; exact h
  | cons op rest ih =>
      intro s h
      refine ih _ ?_
      obtain ⟨hch, hlast, hle⟩ := h
      unfold runOp
      cases hop : op.1 with
      | beginOp ssid pw =>
          show BackoffInv
            (wifiBegin statusAt s.1 ssid (some pw) (s.2 + op.2)).2.1
            (wifiBegin statusAt s.1 ssid (some pw) (s.2 + op.2)).2.2
          obtain ⟨hA, hL, hN⟩ :=
            wifiBegin_frame statusAt s.1 ssid (some pw) (s.2 + op.2)
          rw [BackoffInv, hA, hL]
          exact ⟨hch, hlast, by omega⟩
      | pollOp =>
          exact backoffInv_wifiLoop statusAt s.1 (s.2 + op.2) s.2
            ⟨hch, hlast, hle⟩ (by omega)
      | discOp =>
          refine ⟨by simpa [wifiDisconnect] using hch, fun t ht => ?_,
            by simp only [wifiDisconnect, updateState_lca]; omega⟩
          rw [wifiDisconnect, updateState_lca]
          exact hlast t (by simpa [wifiDisconnect] using ht)

/-- C6: across every sequence of operations and adapter histories, any
two consecutive poll-triggered reconnect attempts are separated by more
than `RECONNECT_DELAY_MS` milliseconds of clock time. -/
theorem uebot_C6 (statusAt : Nat → Bool) (ops : List (WOp × Nat)) :
    List.Chain' (fun a b => a + RECONNECT_DELAY_MS < b)
      (runOps statusAt ops).1.attemptTimes := by
  have h := backoffInv_runOps statusAt ops (setStateCallback mkWiFiManager, 0)
    ⟨by simp [setStateCallback, mkWiFiManager],
     by simp [setStateCallback, mkWiFiManager],
     by simp [setStateCallback, mkWiFiManager]⟩
  exact h.1

/-! ### C10: `isConnected` versus `getState` -/

/-- C10: `isConnected()` is true exactly when the stored state is
Connected and the adapter currently reports connected; hence it implies
`getState() = Connected`, and it can be false while `getState()` still
returns Connected (adapter dropped the link, next poll not yet run). -/
theorem uebot_C10 :
    (∀ (statusAt : Nat → Bool) (m : WiFiManager) (now : Nat),
      isConnected statusAt m now = true ↔
        (m._state = .CONNECTED ∧ statusAt now = true)) ∧
    (∀ (statusAt : Nat → Bool) (m : WiFiManager) (now : Nat),
      isConnected statusAt m now = true → getState m = .CONNECTED) ∧
    (isConnected (fun _ => false)
        { setStateCallback mkWiFiManager with _state := .CONNECTED } 0
        = false ∧
      getState { setStateCallback mkWiFiManager with _state := .CONNECTED }
        = .CONNECTED) := by
  refine ⟨?_, ?_, by decide⟩
  · intro statusAt m now
    simp [isConnected]
  · intro statusAt m now h
    simp [isConnected] at h
    simp [getState, h.1]

/-! ### C7: `setPattern` resets the timing fields and nothing else -/

/-- C7: `setPattern(p)` sets the pattern to `p`, resets
`lastToggleTimestamp` to 0 and `blinkPhase` to 0, and leaves the logical
output level, the pin, the polarity flag and the write log unchanged. -/
theorem uebot_C7 (l : LEDIndicator) (p : LEDPattern) :
    (ledSetPattern l p)._pattern = p ∧
    (ledSetPattern l p)._lastUpdate = 0 ∧
    (ledSetPattern l p)._blinkPhase = 0 ∧
    (ledSetPattern l p)._ledState = l._ledState ∧
    (ledSetPattern l p)._pin = l._pin ∧
    (ledSetPattern l p)._activeLow = l._activeLow ∧
    (ledSetPattern l p).writes = l.writes := by
  simp [ledSetPattern]

/-! ### C8: every physical write goes through polarity correction -/

/-- Polarity discipline: the stored polarity flag is the construction-time
one and every recorded write drives the polarity-corrected level. -/
def WritesOk (al : Bool) (l : LEDIndicator) : Prop :=
  l._activeLow = al ∧ ∀ p ∈ l.writes, p.2 = if al then !p.1 else p.1

theorem writesOk_applyState {al : Bool} {l : LEDIndicator} (h : WritesOk al l)
    (s : Bool) : WritesOk al (applyState l s) := by
  obtain ⟨hal, hw⟩ := h
  refine ⟨hal, ?_⟩
  intro p hp
  simp only [applyState, List.mem_append, List.mem_singleton] at hp
  rcases hp with hp | hp
  · exact hw p hp
  · subst hp
    simp [hal]

theorem writesOk_fields {al : Bool} {l : LEDIndicator} (l' : LEDIndicator)
    (h : WritesOk al l) (h1 : l'._activeLow = l._activeLow)
    (h2 : l'.writes = l.writes) : WritesOk al l' := by
  obtain ⟨hal, hw⟩ := h
  exact ⟨h1.trans hal, by rw [h2]; exact hw⟩

theorem writesOk_ledLoop {al : Bool} {l : LEDIndicator} (h : WritesOk al l)
    (now : Nat) : WritesOk al (ledLoop l now) := by
  unfold ledLoop
  cases l._pattern
  case OFF => exact writesOk_applyState h false
  case ON => exact writesOk_applyState h true
  case BLINK_SLOW =>
    by_cases hc : 1000 < now - l._lastUpdate
    · rw [if_pos hc]
      exact writesOk_applyState (writesOk_fields _ h rfl rfl) _
    · rw [if_neg hc]
      exact h
  case BLINK_FAST =>
    by_cases hc : 200 < now - l._lastUpdate
    · rw [if_pos hc]
      exact writesOk_applyState (writesOk_fields _ h rfl rfl) _
    · rw [if_neg hc]
      exact h
  case PULSE =>
    by_cases hc : 50 < now - l._lastUpdate
    · rw [if_pos hc]
      exact writesOk_applyState (writesOk_fields _ h rfl rfl) _
    · rw [if_neg hc]
      exact h
  case DOUBLE_BLINK =>
    by_cases hc : (if l._blinkPhase < 4 then 100 else 500) < now - l._lastUpdate
    · rw [if_pos hc]
      exact writesOk_fields _
        (writesOk_applyState (writesOk_fields _ h rfl rfl) _) rfl rfl
    · rw [if_neg hc]
      exact h

theorem writesOk_ledStep {al : Bool} {l : LEDIndicator} (h : WritesOk al l)
    (op : LedOp) : WritesOk al (ledStep l op) := by
  cases op with
  | beginOp => exact writesOk_applyState h false
  | loopOp now => exact writesOk_ledLoop h now
  | setPatternOp p => exact writesOk_fields _ h rfl rfl
  | onOp => exact writesOk_applyState (writesOk_fields _ h rfl rfl) true
  | offOp => exact writesOk_applyState (writesOk_fields _ h rfl rfl) false
  | toggleOp => exact writesOk_applyState h _

theorem writesOk_ledRun (al : Bool) :
    ∀ (ops : List LedOp) (l : LEDIndicator), WritesOk al l →
      WritesOk al (ops.foldl ledStep l) := by
  intro ops
  induction ops with
  | nil => intro l h; exact h
  | cons op rest ih => intro l h; exact ih _ (writesOk_ledStep h op)

/-- C8: on every write path (initialize, poll, on, off, toggle) the
physical pin level recorded is the polarity correction of the logical
level: the inverse when `activeLow` is set, the level itself otherwise.
In particular with `activeLow = true`, logical On always drives the line
low and logical Off drives it high. -/
theorem uebot_C8 (pin : Nat) (al : Bool) (ops : List LedOp) :
    (∀ p ∈ (ledRun pin al ops).writes, p.2 = if al then !p.1 else p.1) ∧
    (∀ p ∈ (ledRun pin true ops).writes,
      (p.1 = true → p.2 = false) ∧ (p.1 = false → p.2 = true)) := by
  constructor
  · exact (writesOk_ledRun al ops (mkIndicator pin al)
      ⟨rfl, by simp [mkIndicator]⟩).2
  · intro p hp
    have h := (writesOk_ledRun true ops (mkIndicator pin true)
      ⟨rfl, by simp [mkIndicator]⟩).2 p hp
    constructor <;> intro h1 <;> rw [h1] at h <;> simpa using h

/-! ### C3: `setPattern` and the elapsed-time origin -/

/-- Counterexample to C3: `setPattern` resets `_lastUpdate` to 0, not to
the instant of the call.  An indicator whose pattern is switched to
BLINK_FAST at clock 1000 and polled at clock 1001 — one millisecond after
the call — toggles immediately (one write recorded), because the loop
compares against `1001 - 0 > 200`, not against the time of the call. -/
theorem uebot_C3_cex :
    (ledSetPattern
        { mkIndicator 2 false with
          _pattern := .BLINK_SLOW, _ledState := true, _lastUpdate := 950 }
        .BLINK_FAST).writes.length = 0 ∧
    (ledLoop
        (ledSetPattern
          { mkIndicator 2 false with
            _pattern := .BLINK_SLOW, _ledState := true, _lastUpdate := 950 }
          .BLINK_FAST) 1001).writes.length = 1 := by
  decide

theorem pollSeq_fast_le200 :
    ∀ (times : List Nat) (l0 : LEDIndicator),
      l0._pattern = .BLINK_FAST → l0._lastUpdate = 0 →
      (∀ t ∈ times, t ≤ 200) → pollSeq l0 times = l0 := by
  intro times
  induction times with
  | nil => intro l0 _ _ _; rfl
  | cons t rest ih =>
      intro l0 hp hu h
      have ht : t ≤ 200 := h t (List.mem_cons_self t rest)
      have hstep : ledLoop l0 t = l0 := by
        simp only [ledLoop, hp, hu]
        rw [if_neg (by omega)]
      rw [show pollSeq l0 (t :: rest) = pollSeq (ledLoop l0 t) rest from rfl,
        hstep]
      exact ih l0 hp hu (fun x hx => h x (List.mem_cons_of_mem _ hx))

/-- C3 amended: `setPattern(BlinkFast)` resets the elapsed-time origin to
clock value 0, not to the instant of the call; consequently no toggle
occurs before 200ms of *absolute clock time* has elapsed.  The original
no-toggle-within-200ms-of-the-call guarantee therefore holds exactly when
the pattern is set at clock 0 (as at startup): polls at clock values
≤ 200 leave the indicator completely unchanged. -/
theorem uebot_C3_amended (l : LEDIndicator) (times : List Nat)
    (h : ∀ t ∈ times, t ≤ 200) :
    pollSeq (ledSetPattern l .BLINK_FAST) times =
      ledSetPattern l .BLINK_FAST :=
  pollSeq_fast_le200 times (ledSetPattern l .BLINK_FAST) rfl rfl h

/-- Witness for the amended C3 at a concrete poll schedule. -/
theorem uebot_C3_amended_witness :
    (∀ t ∈ [50, 120, 200], t ≤ 200) ∧
    pollSeq (ledSetPattern (mkIndicator 2 false) .BLINK_FAST)
        [50, 120, 200] =
      ledSetPattern (mkIndicator 2 false) .BLINK_FAST :=
  ⟨by decide,
   uebot_C3_amended (mkIndicator 2 false) [50, 120, 200] (by decide)⟩

/-! ### C4: the DoubleBlink toggle cadence -/

/-- The indicator as the orchestrator configures it for the Error
pattern: fresh construction, then `setPattern(DOUBLE_BLINK)`. -/
def dbl0 : LEDIndicator := ledSetPattern (mkIndicator 2 false) .DOUBLE_BLINK

/-- Modelled from the amended claim: the clock gap before the (n+1)-st
toggle under dense polling — just over 100ms while the phase (n mod 6) is
0..3, just over 500ms for phases 4 and 5. -/
def specGap (n : Nat) : Nat := if n % 6 < 4 then 101 else 501

/-- Modelled from the amended claim: the clock value of the n-th toggle
under dense polling from a fresh DoubleBlink indicator. -/
def specToggleTime : Nat → Nat
  | 0 => 0
  | n + 1 => specToggleTime n + specGap n

/-- The logical level after the n-th DoubleBlink toggle: the level
alternates, starting at true after the first toggle. -/
def dbLevel (n : Nat) : Bool := n % 2 == 1

/-- The write log after n DoubleBlink toggles: the logical level
alternates starting at true, and the pin is not active-low. -/
def dbWrites : Nat → List (Bool × Bool)
  | 0 => []
  | n + 1 => dbWrites n ++ [(dbLevel (n + 1), dbLevel (n + 1))]

/-- The full indicator state right after the n-th DoubleBlink toggle. -/
def dbTarget (n : Nat) : LEDIndicator :=
  { dbl0 with
    _lastUpdate := specToggleTime n
    _blinkPhase := n % 6
    _ledState := dbLevel n
    writes := dbWrites n }

theorem pollFrom_add (l : LEDIndicator) (t : Nat) (a b : Nat) :
    pollFrom l t (a + b) = pollFrom (pollFrom l t a) (t + a) b := by
  induction a generalizing l t with
  | zero => simp [pollFrom]
  | succ a ih =>
      have h1 : a + 1 + b = (a + b) + 1 := by omega
      rw [h1]
      show pollFrom (ledLoop l (t + 1)) (t + 1) (a + b) =
        pollFrom (pollFrom (ledLoop l (t + 1)) (t + 1) a) (t + (a + 1)) b
      rw [ih]
      have h2 : t + 1 + a = t + (a + 1) := by omega
      rw [h2]

/-- Dense polls strictly inside the current threshold window do not
change a DoubleBlink indicator at all. -/
theorem doubleBlink_idle :
    ∀ (k u : Nat) (l : LEDIndicator) (t thr : Nat),
      l._pattern = .DOUBLE_BLINK → l._lastUpdate = t →
      (if l._blinkPhase < 4 then 100 else 500) = thr →
      t ≤ u → u + k ≤ t + thr →
      pollFrom l u k = l := by
  intro k
  induction k with
  | zero => intro u l t thr _ _ _ _ _; rfl
  | succ k ih =>
      intro u l t thr hp hu hthr htu hbound
      have hstep : ledLoop l (u + 1) = l := by
        simp only [ledLoop, hp, hu, hthr]
        rw [if_neg (by omega)]
      rw [show pollFrom l u (k + 1) =
        pollFrom (ledLoop l (u + 1)) (u + 1) k from rfl, hstep]
      exact ih (u + 1) l t thr hp hu hthr (by omega) (by omega)

/-- A poll past the current threshold toggles a DoubleBlink indicator and
advances the phase modulo 6. -/
theorem doubleBlink_fire (l : LEDIndicator) (now : Nat)
    (hp : l._pattern = .DOUBLE_BLINK)
    (hfire : (if l._blinkPhase < 4 then 100 else 500) < now - l._lastUpdate) :
    ledLoop l now =
      { l with
        _ledState := !l._ledState
        _lastUpdate := now
        _blinkPhase := (l._blinkPhase + 1) % 6
        writes := l.writes ++
          [(!l._ledState,
            if l._activeLow then !(!l._ledState) else !l._ledState)] } := by
  simp only [ledLoop, hp]
  rw [if_pos hfire]
  simp [ledToggle, applyState]

theorem parity_flip (m : Nat) : (!(dbLevel m)) = dbLevel (m + 1) := by
  rcases Nat.mod_two_eq_zero_or_one m with h | h <;>
    simp [dbLevel, Nat.add_mod, h]

theorem specGap_pos (n : Nat) : 1 ≤ specGap n := by
  unfold specGap
  split <;> omega

/-- Dense polling from a fresh DoubleBlink indicator reaches exactly the
state `dbTarget n` at the n-th toggle time. -/
theorem dbRun (n : Nat) :
    pollFrom dbl0 0 (specToggleTime n) = dbTarget n := by
  induction n with
  | zero => decide
  | succ n ih =>
      have hphase : (dbTarget n)._blinkPhase = n % 6 := rfl
      have hthr : (if (dbTarget n)._blinkPhase < 4 then 100 else 500) =
          specGap n - 1 := by
        rw [hphase]
        unfold specGap
        by_cases h46 : n % 6 < 4 <;> simp [h46]
      have hg : specGap n = (specGap n - 1) + 1 := by
        have := specGap_pos n
        omega
      have hT : specToggleTime (n + 1) =
          specToggleTime n + ((specGap n - 1) + 1) := by
        rw [← hg]
        rfl
      rw [hT, pollFrom_add dbl0 0 (specToggleTime n) ((specGap n - 1) + 1),
        ih]
      rw [pollFrom_add (dbTarget n) (0 + specToggleTime n) (specGap n - 1) 1]
      rw [doubleBlink_idle (specGap n - 1) (0 + specToggleTime n)
        (dbTarget n) (specToggleTime n) (specGap n - 1) rfl rfl hthr
        (by omega) (by omega)]
      rw [show pollFrom (dbTarget n)
        (0 + specToggleTime n + (specGap n - 1)) 1 =
        ledLoop (dbTarget n)
          (0 + specToggleTime n + (specGap n - 1) + 1) from rfl]
      rw [doubleBlink_fire (dbTarget n) _ rfl (by
        rw [hthr, show (dbTarget n)._lastUpdate = specToggleTime n from rfl]
        omega)]
      show ({ dbTarget n with
        _ledState := !(dbTarget n)._ledState
        _lastUpdate := 0 + specToggleTime n + (specGap n - 1) + 1
        _blinkPhase := ((dbTarget n)._blinkPhase + 1) % 6
        writes := (dbTarget n).writes ++
          [(!(dbTarget n)._ledState,
            if (dbTarget n)._activeLow then !(!(dbTarget n)._ledState)
            else !(dbTarget n)._ledState)] } : LEDIndicator) = dbTarget (n + 1)
      have hlu : 0 + specToggleTime n + (specGap n - 1) + 1 =
          specToggleTime (n + 1) := by
        have := specGap_pos n
        show _ = specToggleTime n + specGap n
        omega
      have hps : ((dbTarget n)._blinkPhase + 1) % 6 = (n + 1) % 6 := by
        rw [hphase]
        omega
      have hal : (dbTarget n)._activeLow = false := rfl
      have hls : (dbTarget n)._ledState = dbLevel n := rfl
      have e1 : (!(dbTarget n)._ledState) = dbLevel (n + 1) := by
        rw [hls]
        exact parity_flip n
      have e3 : (if (dbTarget n)._activeLow then !(!(dbTarget n)._ledState)
          else !(dbTarget n)._ledState) = dbLevel (n + 1) := by
        rw [hal]
        simpa using e1
      rw [e3, e1, hps, hlu]
      rfl

theorem dbWrites_length (n : Nat) : (dbWrites n).length = n := by
  induction n with
  | zero => rfl
  | succ n ih => simp [dbWrites, ih]

set_option maxRecDepth 4000 in
/-- Counterexample to C4: starting from blinkPhase 0, the code's third
toggle arrives ~100ms after the second, not 500ms after it.  Densely
polling a fresh DoubleBlink indicator gives two toggles by clock 202 (the
claimed two fast toggles) and already a third by clock 303, with
blinkPhase at 3 — the claim would require no third toggle before clock
≈ 702. -/
theorem uebot_C4_cex :
    (pollFrom dbl0 0 202).writes.length = 2 ∧
    (pollFrom dbl0 0 303).writes.length = 3 ∧
    (pollFrom dbl0 0 303)._blinkPhase = 3 := by
  decide

/-- C4 amended: under dense polling from a fresh DoubleBlink indicator,
toggles occur exactly at the times `specToggleTime n`: four toggles at
just-over-100ms spacing (phases 0–3, two fast on-pulses) followed by two
toggles at just-over-500ms spacing (phases 4–5), repeating with
`blinkPhase` cycling modulo 6; between consecutive toggle times no write
occurs, and the logical level alternates. -/
theorem uebot_C4_amended (n : Nat) :
    (pollFrom dbl0 0 (specToggleTime n))._blinkPhase = n % 6 ∧
    (pollFrom dbl0 0 (specToggleTime n))._lastUpdate = specToggleTime n ∧
    (pollFrom dbl0 0 (specToggleTime n))._ledState = dbLevel n ∧
    (pollFrom dbl0 0 (specToggleTime n)).writes.length = n ∧
    (pollFrom dbl0 0 (specToggleTime n + (specGap n - 1))).writes.length
      = n := by
  have h := dbRun n
  refine ⟨by rw [h]; rfl, by rw [h]; rfl, by rw [h]; rfl,
    by rw [h]; exact dbWrites_length n, ?_⟩
  rw [pollFrom_add dbl0 0 (specToggleTime n) (specGap n - 1), h]
  rw [doubleBlink_idle (specGap n - 1) (0 + specToggleTime n)
    (dbTarget n) (specToggleTime n) (specGap n - 1) rfl rfl ?_ (by omega)
    (by omega)]
  · exact dbWrites_length n
  · rw [show (dbTarget n)._blinkPhase = n % 6 from rfl]
    unfold specGap
    by_cases h46 : n % 6 < 4 <;> simp [h46]

end UEBot
